import Mathlib

/-!
Shallow embedding of the BME680 mbed driver (src/mbed_bme680.cpp).

The driver is a thin measurement controller around an external
compensation engine.  The engine itself and the constant definitions it
exports live in headers that are not part of src/, so every constant
below that the C++ file merely uses is modelled from the spec and marked
as such; the control flow and state updates are translated directly from
src/mbed_bme680.cpp.

Engine calls made by the controller are modelled as explicit parameters:
each call contributes a status code (OK versus any non-OK value), and the
sample-fetch call contributes the sample the engine hands back on success.
Per the spec, the engine contract returns a status code and, for the
fetch step, a sample; on a non-OK fetch status the stored sample retains
its previous value.

Float-returning accessors are modelled over exact rationals, with the C
NAN sentinel as an explicit constructor.  At every input the claims
mention (2550/100.0, 45000/1000.0, the constants 0) the IEEE computation
is exact, so the rational model agrees with the float code there.
-/

/-- Modelled from the spec: the engine status contract is two-valued, OK
versus any other value; OK is the zero status code exported by the engine
header (not under src/). -/
def BME680_OK : Int := 0

/-- Modelled from the spec: the oversampling enumeration is ordered NONE,
1x, 2x, 4x, 8x, 16x; it is encoded by index in the engine header (not
under src/).  NONE is the first value. -/
def BME680_OS_NONE : Nat := 0

/-- Modelled from the spec: oversampling level 2x, encoded by its index in
the ordered enumeration. -/
def BME680_OS_2X : Nat := 2

/-- Modelled from the spec: oversampling level 4x, encoded by its index in
the ordered enumeration. -/
def BME680_OS_4X : Nat := 3

/-- Modelled from the spec: oversampling level 8x, encoded by its index in
the ordered enumeration. -/
def BME680_OS_8X : Nat := 4

/-- Modelled from the spec: oversampling level 16x, the maximum value of
the ordered enumeration. -/
def BME680_OS_16X : Nat := 5

/-- Modelled from the spec: the filter-size enumeration is ordered 0, 1,
3, 7, 15, 31, 63, 127 samples and encoded by index; size 0 is the first
value. -/
def BME680_FILTER_SIZE_0 : Nat := 0

/-- Modelled from the spec: filter size 3 samples, encoded by its index in
the ordered enumeration. -/
def BME680_FILTER_SIZE_3 : Nat := 2

/-- Modelled from the spec: filter size 127 samples, the maximum value of
the ordered enumeration. -/
def BME680_FILTER_SIZE_127 : Nat := 7

/-- Modelled from the spec: the forced-mode power-mode tag exported by the
engine header (not under src/); only its identity matters here. -/
def BME680_FORCED_MODE : Nat := 1

/-- Modelled from the spec: the heater-stable bit of the status bitfield,
a fixed single-bit mask exported by the engine header (not under src/). -/
def BME680_HEAT_STAB_MSK : Nat := 16

/-- Modelled from the spec: the run-gas tag meaning gas measurement
disabled, exported by the engine header (not under src/). -/
def BME680_DISABLE_GAS_MEAS : Nat := 0

/-- Modelled from the spec: the run-gas tag meaning gas measurement
enabled, exported by the engine header (not under src/). -/
def BME680_ENABLE_GAS_MEAS : Nat := 1

/-- Modelled from the spec: the settings-selector bit requesting the
temperature-oversampling channel; the spec specifies one selector bit per
requestable channel, so the five selectors are five distinct bits. -/
def BME680_OST_SEL : Nat := 1

/-- Modelled from the spec: the settings-selector bit requesting the
pressure-oversampling channel. -/
def BME680_OSP_SEL : Nat := 2

/-- Modelled from the spec: the settings-selector bit requesting the
humidity-oversampling channel. -/
def BME680_OSH_SEL : Nat := 4

/-- Modelled from the spec: the settings-selector bit requesting the
IIR-filter channel. -/
def BME680_FILTER_SEL : Nat := 8

/-- Modelled from the spec: the settings-selector bit requesting the
gas-sensor channel. -/
def BME680_GAS_SENSOR_SEL : Nat := 16

/-- The tph_sett member of the engine device struct: oversampling per
channel and the IIR filter size, as written by the setters in
src/mbed_bme680.cpp. -/
structure TphSett where
  os_hum : Nat
  os_temp : Nat
  os_pres : Nat
  filter : Nat
deriving DecidableEq, Repr

/-- The gas_sett member of the engine device struct: heater target
temperature, heater duration, and the run-gas tag, as written by
setGasHeater. -/
structure GasSett where
  heatr_temp : Nat
  heatr_dur : Nat
  run_gas : Nat
deriving DecidableEq, Repr

/-- The fields of the engine device struct (gas_sensor in the C++ class)
that the measurement controller reads or writes.  Transport wiring
(device address, interface tag, callbacks) is out of scope per the spec
and carries no controller-visible state. -/
structure Dev where
  tph_sett : TphSett
  gas_sett : GasSett
  power_mode : Nat
deriving DecidableEq, Repr

/-- The RawSample (the data member of the C++ class, an engine field-data
struct): status bitfield plus the four raw channel readings.
temperature is a signed 16-bit field, the rest unsigned. -/
structure FieldData where
  status : Nat
  temperature : Int
  pressure : Nat
  humidity : Nat
  gas_resistance : Nat
deriving DecidableEq, Repr

/-- The controller state of the BME680 C++ class: the five channel-enable
flags, the engine device struct, and the last-fetched sample. -/
structure BME680State where
  tempEnabled : Bool
  humEnabled : Bool
  presEnabled : Bool
  gasEnabled : Bool
  filterEnabled : Bool
  gas_sensor : Dev
  data : FieldData
deriving DecidableEq, Repr

/-- BME680::setTemperatureOversampling, src/mbed_bme680.cpp lines
206-217: reject values above the maximum, store the level, derive the
enable flag. -/
def setTemperatureOversampling (s : BME680State) (oversample : Nat) :
    BME680State × Bool :=
  if oversample > BME680_OS_16X then (s, false)
  else
    if oversample = BME680_OS_NONE then
      ({ s with
          gas_sensor := { s.gas_sensor with
            tph_sett := { s.gas_sensor.tph_sett with os_temp := oversample } },
          tempEnabled := false }, true)
    else
      ({ s with
          gas_sensor := { s.gas_sensor with
            tph_sett := { s.gas_sensor.tph_sett with os_temp := oversample } },
          tempEnabled := true }, true)

/-- BME680::setHumidityOversampling, src/mbed_bme680.cpp lines 225-236. -/
def setHumidityOversampling (s : BME680State) (oversample : Nat) :
    BME680State × Bool :=
  if oversample > BME680_OS_16X then (s, false)
  else
    if oversample = BME680_OS_NONE then
      ({ s with
          gas_sensor := { s.gas_sensor with
            tph_sett := { s.gas_sensor.tph_sett with os_hum := oversample } },
          humEnabled := false }, true)
    else
      ({ s with
          gas_sensor := { s.gas_sensor with
            tph_sett := { s.gas_sensor.tph_sett with os_hum := oversample } },
          humEnabled := true }, true)

/-- BME680::setPressureOversampling, src/mbed_bme680.cpp lines 244-255. -/
def setPressureOversampling (s : BME680State) (oversample : Nat) :
    BME680State × Bool :=
  if oversample > BME680_OS_16X then (s, false)
  else
    if oversample = BME680_OS_NONE then
      ({ s with
          gas_sensor := { s.gas_sensor with
            tph_sett := { s.gas_sensor.tph_sett with os_pres := oversample } },
          presEnabled := false }, true)
    else
      ({ s with
          gas_sensor := { s.gas_sensor with
            tph_sett := { s.gas_sensor.tph_sett with os_pres := oversample } },
          presEnabled := true }, true)

/-- BME680::setIIRFilterSize, src/mbed_bme680.cpp lines 264-275. -/
def setIIRFilterSize (s : BME680State) (filter_seize : Nat) :
    BME680State × Bool :=
  if filter_seize > BME680_FILTER_SIZE_127 then (s, false)
  else
    if filter_seize = BME680_FILTER_SIZE_0 then
      ({ s with
          gas_sensor := { s.gas_sensor with
            tph_sett := { s.gas_sensor.tph_sett with filter := filter_seize } },
          filterEnabled := false }, true)
    else
      ({ s with
          gas_sensor := { s.gas_sensor with
            tph_sett := { s.gas_sensor.tph_sett with filter := filter_seize } },
          filterEnabled := true }, true)

/-- BME680::setGasHeater, src/mbed_bme680.cpp lines 185-198: store both
heater values, derive run_gas and the gas-enable flag from whether either
value is zero. -/
def setGasHeater (s : BME680State) (heaterTemp heaterTime : Nat) :
    BME680State × Bool :=
  if heaterTemp = 0 ∨ heaterTime = 0 then
    ({ s with
        gas_sensor := { s.gas_sensor with
          gas_sett := { heatr_temp := heaterTemp, heatr_dur := heaterTime,
                        run_gas := BME680_DISABLE_GAS_MEAS } },
        gasEnabled := false }, true)
  else
    ({ s with
        gas_sensor := { s.gas_sensor with
          gas_sett := { heatr_temp := heaterTemp, heatr_dur := heaterTime,
                        run_gas := BME680_ENABLE_GAS_MEAS } },
        gasEnabled := true }, true)

/-- The power-mode selection at the top of BME680::performReading,
src/mbed_bme680.cpp line 47: gas_sensor.power_mode = BME680_FORCED_MODE. -/
def setForcedMode (s : BME680State) : BME680State :=
  { s with gas_sensor := { s.gas_sensor with power_mode := BME680_FORCED_MODE } }

/-- The settings-request bitmask built by BME680::performReading,
src/mbed_bme680.cpp lines 42 and 50-59: start from 0 and OR in one
selector per enabled flag, in source order. -/
def requiredSettings (s : BME680State) : Nat :=
  let m0 : Nat := 0
  let m1 := if s.tempEnabled then m0 ||| BME680_OST_SEL else m0
  let m2 := if s.humEnabled then m1 ||| BME680_OSH_SEL else m1
  let m3 := if s.presEnabled then m2 ||| BME680_OSP_SEL else m2
  let m4 := if s.filterEnabled then m3 ||| BME680_FILTER_SEL else m3
  if s.gasEnabled then m4 ||| BME680_GAS_SENSOR_SEL else m4

/-- BME680::performReading, src/mbed_bme680.cpp lines 41-87.  The three
engine calls are modelled by explicit parameters: setSettings is the
status the engine returns for the pushed bitmask, modeResult and
fetchResult the statuses of the mode-set and data-fetch calls, and
fetched the sample the engine hands back when the fetch succeeds.
Modelled from the spec: the engine (bme680_set_sensor_settings,
bme680_set_sensor_mode, bme680_get_sensor_data, not under src/) returns a
status code per call and does not alter the controller configuration; on
a non-OK fetch the stored sample retains its previous value.  The
measurement-duration query and the delay (lines 75-79) have no
controller-visible state effect and are omitted. -/
def performReading (setSettings : Nat → Int) (modeResult fetchResult : Int)
    (fetched : FieldData) (s : BME680State) : BME680State × Bool :=
  if setSettings (requiredSettings (setForcedMode s)) ≠ BME680_OK then
    (setForcedMode s, false)
  else if modeResult ≠ BME680_OK then
    (setForcedMode s, false)
  else if fetchResult ≠ BME680_OK then
    (setForcedMode s, false)
  else
    ({ setForcedMode s with data := fetched }, true)

/-- The configuration side of BME680::begin, src/mbed_bme680.cpp lines
22-26: the five default setter calls, chained in source order. -/
def beginConfigured (s : BME680State) : BME680State :=
  (setGasHeater
    (setIIRFilterSize
      (setTemperatureOversampling
        (setPressureOversampling
          (setHumidityOversampling s BME680_OS_2X).1
          BME680_OS_4X).1
        BME680_OS_8X).1
      BME680_FILTER_SIZE_3).1
    320 150).1

/-- BME680::begin, src/mbed_bme680.cpp lines 13-34: wire the device
descriptor (transport wiring, out of scope), apply the default
configuration, then call the engine initialization; initResult is the
status that call returns (bme680_init is engine code, not under src/,
modelled from the spec as returning a status code). -/
def begin (initResult : Int) (s : BME680State) : BME680State × Bool :=
  if initResult ≠ BME680_OK then (beginConfigured s, false)
  else (beginConfigured s, true)

/-- BME680::isGasHeatingSetupStable, src/mbed_bme680.cpp lines 89-95:
test the heater-stable bit of the last-fetched status bitfield. -/
def isGasHeatingSetupStable (s : BME680State) : Bool :=
  if s.data.status &&& BME680_HEAT_STAB_MSK ≠ 0 then true
  else false

/-- Value of a float-returning accessor, modelled exactly: either the C
NAN sentinel or an exact rational.  Every claim-relevant computation is
exact in IEEE floating point, so the models agree there. -/
inductive FVal where
  | nan : FVal
  | val : ℚ → FVal
deriving DecidableEq, Repr

/-- BME680::getRawTemperature, src/mbed_bme680.cpp lines 97-99. -/
def getRawTemperature (s : BME680State) : Int :=
  s.data.temperature

/-- BME680::getRawPressure, src/mbed_bme680.cpp lines 101-103. -/
def getRawPressure (s : BME680State) : Nat :=
  s.data.pressure

/-- BME680::getRawHumidity, src/mbed_bme680.cpp lines 105-107. -/
def getRawHumidity (s : BME680State) : Nat :=
  s.data.humidity

/-- BME680::getRawGasResistance, src/mbed_bme680.cpp lines 109-111. -/
def getRawGasResistance (s : BME680State) : Nat :=
  s.data.gas_resistance

/-- BME680::getTemperature, src/mbed_bme680.cpp lines 117-126: NAN unless
the temperature channel is enabled, else the raw value over 100.0. -/
def getTemperature (s : BME680State) : FVal :=
  if s.tempEnabled then FVal.val ((s.data.temperature : ℚ) / 100)
  else FVal.nan

/-- BME680::getHumidity, src/mbed_bme680.cpp lines 132-142: NAN unless
the humidity channel is enabled, else the raw value over 1000.0. -/
def getHumidity (s : BME680State) : FVal :=
  if s.humEnabled then FVal.val ((s.data.humidity : ℚ) / 1000)
  else FVal.nan

/-- BME680::getPressure, src/mbed_bme680.cpp lines 149-158: NAN unless
the pressure channel is enabled, else the raw value as-is. -/
def getPressure (s : BME680State) : FVal :=
  if s.presEnabled then FVal.val (s.data.pressure : ℚ)
  else FVal.nan

/-- BME680::getGasResistance, src/mbed_bme680.cpp lines 164-177: 0 unless
the gas channel is enabled and the heater is stable, else the raw value
as-is. -/
def getGasResistance (s : BME680State) : FVal :=
  if s.gasEnabled then
    if isGasHeatingSetupStable s then FVal.val (s.data.gas_resistance : ℚ)
    else FVal.val 0
  else FVal.val 0

/-- The settings bitmask as the spec words it (section 4.2 step 2): the
OR of one selector bit per enabled channel, disabled channels
contributing no bit.  Stated independently of the source-order
accumulation in requiredSettings, for comparison with it. -/
def specSettingsMask (s : BME680State) : Nat :=
  (if s.tempEnabled then BME680_OST_SEL else 0) |||
  (if s.humEnabled then BME680_OSH_SEL else 0) |||
  (if s.presEnabled then BME680_OSP_SEL else 0) |||
  (if s.filterEnabled then BME680_FILTER_SEL else 0) |||
  (if s.gasEnabled then BME680_GAS_SENSOR_SEL else 0)

/-- A concrete device value for witness states. -/
def dev0 : Dev :=
  { tph_sett := { os_hum := 0, os_temp := 0, os_pres := 0, filter := 0 },
    gas_sett := { heatr_temp := 0, heatr_dur := 0, run_gas := 0 },
    power_mode := 0 }

/-- A concrete sample with nonzero raw readings in every channel, for
witness states that must show gating ignores the raw contents. -/
def rawJunk : FieldData :=
  { status := 255, temperature := 1234, pressure := 99999,
    humidity := 88888, gas_resistance := 77777 }

/-- A concrete controller state with every channel disabled but nonzero
raw readings stored. -/
def stAllDisabled : BME680State :=
  { tempEnabled := false, humEnabled := false, presEnabled := false,
    gasEnabled := false, filterEnabled := false,
    gas_sensor := dev0, data := rawJunk }

/-- A concrete controller state with gas enabled, the heater-stable
status bit clear, and a nonzero raw gas-resistance reading. -/
def stGasUnstable : BME680State :=
  { tempEnabled := false, humEnabled := false, presEnabled := false,
    gasEnabled := true, filterEnabled := false,
    gas_sensor := dev0,
    data := { status := 0, temperature := 0, pressure := 0,
              humidity := 0, gas_resistance := 77777 } }

/-- A concrete controller state with temperature and humidity enabled and
the raw fields of the round-trip conversion claim. -/
def stConversion : BME680State :=
  { tempEnabled := true, humEnabled := true, presEnabled := false,
    gasEnabled := false, filterEnabled := false,
    gas_sensor := dev0,
    data := { status := 0, temperature := 2550, pressure := 0,
              humidity := 45000, gas_resistance := 0 } }

/-- A concrete engine response for the settings-push step that always
fails, for the witness of the failure-path claim. -/
def failSettingsPush : Nat → Int := fun _ => -2

/-- A concrete engine response for the settings-push step that always
succeeds. -/
def okSettingsPush : Nat → Int := fun _ => BME680_OK

/-- C1: performReading returns true precisely when the settings-push, the
mode-set and the data-fetch statuses are all OK; any non-OK status among
the three makes it return false. -/
theorem performReading_true_iff_all_ok (setSettings : Nat → Int)
    (modeResult fetchResult : Int) (fetched : FieldData) (s : BME680State) :
    (performReading setSettings modeResult fetchResult fetched s).2 = true ↔
      (setSettings (requiredSettings (setForcedMode s)) = BME680_OK ∧
        modeResult = BME680_OK ∧ fetchResult = BME680_OK) := by
  unfold performReading
  split_ifs with h1 h2 h3 <;> simp_all

/-- C2: whenever performReading returns false, whichever of the three
engine steps failed, the stored RawSample is exactly what it was before
the call. -/
theorem performReading_false_data_unchanged (setSettings : Nat → Int)
    (modeResult fetchResult : Int) (fetched : FieldData) (s : BME680State)
    (h : (performReading setSettings modeResult fetchResult fetched s).2 = false) :
    (performReading setSettings modeResult fetchResult fetched s).1.data = s.data := by
  unfold performReading at h ⊢
  split_ifs at h ⊢ <;> simp_all [setForcedMode]

/-- Witness for C2 at a concrete input: a failing settings-push leaves
the stored sample untouched. -/
theorem performReading_false_data_unchanged_witness :
    (performReading failSettingsPush 0 0 rawJunk stAllDisabled).2 = false ∧
      (performReading failSettingsPush 0 0 rawJunk stAllDisabled).1.data =
        stAllDisabled.data :=
  ⟨by decide,
    performReading_false_data_unchanged failSettingsPush 0 0 rawJunk stAllDisabled
      (by decide)⟩

/-- C3: for every state of the five enable flags, the bitmask
performReading passes to the engine equals the OR of one selector bit per
enabled channel, disabled channels contributing no bit. -/
theorem requiredSettings_eq_specSettingsMask (s : BME680State) :
    requiredSettings (setForcedMode s) = specSettingsMask s := by
  rcases s with ⟨t, h, p, g, f, dev, da⟩
  cases t <;> cases h <;> cases p <;> cases g <;> cases f <;>
    simp [requiredSettings, specSettingsMask, setForcedMode]

/-- C5: setGasHeater always returns true, stores both heater values, and
disables gas exactly when either value is zero. -/
theorem setGasHeater_spec (s : BME680State) (t d : Nat) :
    (setGasHeater s t d).2 = true ∧
    (setGasHeater s t d).1.gas_sensor.gas_sett.heatr_temp = t ∧
    (setGasHeater s t d).1.gas_sensor.gas_sett.heatr_dur = d ∧
    ((setGasHeater s t d).1.gasEnabled = false ↔ (t = 0 ∨ d = 0)) := by
  unfold setGasHeater
  split_ifs with h <;> simp_all

/-- C4: each oversampling setter and the filter-size setter rejects any
input strictly above the maximum enumeration value, returning false with
the whole state unchanged; accepts NONE (respectively size 0), storing it
and clearing the enable flag; and accepts every other valid input,
storing it and setting the enable flag. -/
theorem oversampling_and_filter_setter_spec (s : BME680State) (v : Nat) :
    (BME680_OS_16X < v → setTemperatureOversampling s v = (s, false)) ∧
    (setTemperatureOversampling s BME680_OS_NONE =
      ({ s with
          gas_sensor := { s.gas_sensor with
            tph_sett := { s.gas_sensor.tph_sett with os_temp := BME680_OS_NONE } },
          tempEnabled := false }, true)) ∧
    (BME680_OS_NONE < v → v ≤ BME680_OS_16X →
      setTemperatureOversampling s v =
        ({ s with
            gas_sensor := { s.gas_sensor with
              tph_sett := { s.gas_sensor.tph_sett with os_temp := v } },
            tempEnabled := true }, true)) ∧
    (BME680_OS_16X < v → setHumidityOversampling s v = (s, false)) ∧
    (setHumidityOversampling s BME680_OS_NONE =
      ({ s with
          gas_sensor := { s.gas_sensor with
            tph_sett := { s.gas_sensor.tph_sett with os_hum := BME680_OS_NONE } },
          humEnabled := false }, true)) ∧
    (BME680_OS_NONE < v → v ≤ BME680_OS_16X →
      setHumidityOversampling s v =
        ({ s with
            gas_sensor := { s.gas_sensor with
              tph_sett := { s.gas_sensor.tph_sett with os_hum := v } },
            humEnabled := true }, true)) ∧
    (BME680_OS_16X < v → setPressureOversampling s v = (s, false)) ∧
    (setPressureOversampling s BME680_OS_NONE =
      ({ s with
          gas_sensor := { s.gas_sensor with
            tph_sett := { s.gas_sensor.tph_sett with os_pres := BME680_OS_NONE } },
          presEnabled := false }, true)) ∧
    (BME680_OS_NONE < v → v ≤ BME680_OS_16X →
      setPressureOversampling s v =
        ({ s with
            gas_sensor := { s.gas_sensor with
              tph_sett := { s.gas_sensor.tph_sett with os_pres := v } },
            presEnabled := true }, true)) ∧
    (BME680_FILTER_SIZE_127 < v → setIIRFilterSize s v = (s, false)) ∧
    (setIIRFilterSize s BME680_FILTER_SIZE_0 =
      ({ s with
          gas_sensor := { s.gas_sensor with
            tph_sett := { s.gas_sensor.tph_sett with filter := BME680_FILTER_SIZE_0 } },
          filterEnabled := false }, true)) ∧
    (BME680_FILTER_SIZE_0 < v → v ≤ BME680_FILTER_SIZE_127 →
      setIIRFilterSize s v =
        ({ s with
            gas_sensor := { s.gas_sensor with
              tph_sett := { s.gas_sensor.tph_sett with filter := v } },
            filterEnabled := true }, true)) := by
  refine ⟨fun h => ?_, ?_, fun h1 h2 => ?_, fun h => ?_, ?_, fun h1 h2 => ?_,
    fun h => ?_, ?_, fun h1 h2 => ?_, fun h => ?_, ?_, fun h1 h2 => ?_⟩
  · simp [setTemperatureOversampling, h]
  · simp [setTemperatureOversampling, BME680_OS_NONE, BME680_OS_16X]
  · have h3 : ¬ BME680_OS_16X < v := not_lt.mpr h2
    have h4 : v ≠ BME680_OS_NONE := by
      unfold BME680_OS_NONE at *; omega
    simp [setTemperatureOversampling, h3, h4]
  · simp [setHumidityOversampling, h]
  · simp [setHumidityOversampling, BME680_OS_NONE, BME680_OS_16X]
  · have h3 : ¬ BME680_OS_16X < v := not_lt.mpr h2
    have h4 : v ≠ BME680_OS_NONE := by
      unfold BME680_OS_NONE at *; omega
    simp [setHumidityOversampling, h3, h4]
  · simp [setPressureOversampling, h]
  · simp [setPressureOversampling, BME680_OS_NONE, BME680_OS_16X]
  · have h3 : ¬ BME680_OS_16X < v := not_lt.mpr h2
    have h4 : v ≠ BME680_OS_NONE := by
      unfold BME680_OS_NONE at *; omega
    simp [setPressureOversampling, h3, h4]
  · simp [setIIRFilterSize, h]
  · simp [setIIRFilterSize, BME680_FILTER_SIZE_0, BME680_FILTER_SIZE_127]
  · have h3 : ¬ BME680_FILTER_SIZE_127 < v := not_lt.mpr h2
    have h4 : v ≠ BME680_FILTER_SIZE_0 := by
      unfold BME680_FILTER_SIZE_0 at *; omega
    simp [setIIRFilterSize, h3, h4]

/-- Witness for C4 at concrete inputs: 6 is rejected by the temperature
setter with the state unchanged, and 2 is accepted with the flag set. -/
theorem oversampling_and_filter_setter_spec_witness :
    setTemperatureOversampling stAllDisabled 6 = (stAllDisabled, false) ∧
      (setTemperatureOversampling stAllDisabled 2).1.tempEnabled = true :=
  ⟨(oversampling_and_filter_setter_spec stAllDisabled 6).1 (by decide),
   by rw [(oversampling_and_filter_setter_spec stAllDisabled 2).2.2.1
       (by decide) (by decide)]⟩

/-- C6: a disabled channel makes its physical-unit accessor return the
disabled sentinel (NAN for temperature, humidity and pressure, 0 for
gas), regardless of the raw sample contents. -/
theorem disabled_channel_sentinels (s : BME680State) :
    (s.tempEnabled = false → getTemperature s = FVal.nan) ∧
    (s.humEnabled = false → getHumidity s = FVal.nan) ∧
    (s.presEnabled = false → getPressure s = FVal.nan) ∧
    (s.gasEnabled = false → getGasResistance s = FVal.val 0) := by
  refine ⟨fun h => ?_, fun h => ?_, fun h => ?_, fun h => ?_⟩ <;>
    simp [getTemperature, getHumidity, getPressure, getGasResistance, h]

/-- Witness for C6 at a concrete state whose channels are all disabled
but whose raw sample holds nonzero readings in every field. -/
theorem disabled_channel_sentinels_witness :
    getTemperature stAllDisabled = FVal.nan ∧
      getGasResistance stAllDisabled = FVal.val 0 :=
  ⟨(disabled_channel_sentinels stAllDisabled).1 rfl,
   (disabled_channel_sentinels stAllDisabled).2.2.2 rfl⟩

/-- C7: with gas enabled and the heater-stable status bit clear,
getGasResistance returns 0 regardless of the raw gas-resistance field;
and isGasHeatingSetupStable holds exactly when the heater-stable bit of
the last-fetched status bitfield is set. -/
theorem gas_stability_gate (s : BME680State) :
    (s.gasEnabled = true → s.data.status &&& BME680_HEAT_STAB_MSK = 0 →
      getGasResistance s = FVal.val 0) ∧
    (isGasHeatingSetupStable s = true ↔
      s.data.status &&& BME680_HEAT_STAB_MSK ≠ 0) := by
  constructor
  · intro hg hs
    simp [getGasResistance, isGasHeatingSetupStable, hg, hs]
  · by_cases hc : s.data.status &&& BME680_HEAT_STAB_MSK ≠ 0 <;>
      simp [isGasHeatingSetupStable, hc]

/-- Witness for C7 at a concrete state: gas enabled, status bitfield 0,
raw gas resistance 77777, yet the accessor returns 0. -/
theorem gas_stability_gate_witness :
    getGasResistance stGasUnstable = FVal.val 0 :=
  (gas_stability_gate stGasUnstable).1 rfl (by decide)

/-- C8: begin applies the default configuration (humidity 2x, pressure
4x, temperature 8x, filter size 3, heater 320 for 150 ms) before the
engine initialization, succeeds exactly when that routine reports OK,
leaves all five enable flags set on success, and leaves the same default
configuration in place on failure. -/
theorem begin_defaults_spec (r : Int) (s : BME680State) :
    ((begin r s).2 = true ↔ r = BME680_OK) ∧
    (begin r s).1 = beginConfigured s ∧
    (beginConfigured s).tempEnabled = true ∧
    (beginConfigured s).humEnabled = true ∧
    (beginConfigured s).presEnabled = true ∧
    (beginConfigured s).gasEnabled = true ∧
    (beginConfigured s).filterEnabled = true ∧
    (beginConfigured s).gas_sensor.tph_sett.os_hum = BME680_OS_2X ∧
    (beginConfigured s).gas_sensor.tph_sett.os_pres = BME680_OS_4X ∧
    (beginConfigured s).gas_sensor.tph_sett.os_temp = BME680_OS_8X ∧
    (beginConfigured s).gas_sensor.tph_sett.filter = BME680_FILTER_SIZE_3 ∧
    (beginConfigured s).gas_sensor.gas_sett.heatr_temp = 320 ∧
    (beginConfigured s).gas_sensor.gas_sett.heatr_dur = 150 ∧
    (beginConfigured s).gas_sensor.gas_sett.run_gas = BME680_ENABLE_GAS_MEAS := by
  constructor
  · unfold begin; split_ifs with h <;> simp_all
  constructor
  · unfold begin; split_ifs <;> rfl
  refine ⟨?_, ?_, ?_, ?_, ?_, ?_, ?_, ?_, ?_, ?_, ?_, ?_⟩ <;>
    simp [beginConfigured, setGasHeater, setIIRFilterSize,
      setTemperatureOversampling, setPressureOversampling,
      setHumidityOversampling, BME680_OS_2X, BME680_OS_4X, BME680_OS_8X,
      BME680_OS_16X, BME680_OS_NONE, BME680_FILTER_SIZE_3,
      BME680_FILTER_SIZE_0, BME680_FILTER_SIZE_127,
      BME680_ENABLE_GAS_MEAS, BME680_DISABLE_GAS_MEAS]

/-- C9: with temperature enabled and a raw temperature field of 2550 the
accessor returns exactly 25.5, and with humidity enabled and a raw
humidity field of 45000 it returns exactly 45.0. -/
theorem unit_conversion_roundtrip (s : BME680State) :
    (s.tempEnabled = true → s.data.temperature = 2550 →
      getTemperature s = FVal.val (25.5 : ℚ)) ∧
    (s.humEnabled = true → s.data.humidity = 45000 →
      getHumidity s = FVal.val (45 : ℚ)) := by
  constructor
  · intro h1 h2
    simp [getTemperature, h1, h2]
    norm_num
  · intro h1 h2
    simp [getHumidity, h1, h2]
    norm_num

/-- Witness for C9 at a concrete state carrying raw readings 2550 and
45000 with both channels enabled. -/
theorem unit_conversion_roundtrip_witness :
    getTemperature stConversion = FVal.val (25.5 : ℚ) ∧
      getHumidity stConversion = FVal.val (45 : ℚ) :=
  ⟨(unit_conversion_roundtrip stConversion).1 rfl rfl,
   (unit_conversion_roundtrip stConversion).2 rfl rfl⟩

/-- C10: performReading, on success and on failure alike, preserves the
five channel-enable flags, the stored oversampling and filter settings,
and the heater configuration; the only configuration field it writes is
the power mode, set to forced mode at the start of the call. -/
theorem performReading_frame (setSettings : Nat → Int)
    (modeResult fetchResult : Int) (fetched : FieldData) (s : BME680State) :
    (performReading setSettings modeResult fetchResult fetched s).1.tempEnabled
        = s.tempEnabled ∧
    (performReading setSettings modeResult fetchResult fetched s).1.humEnabled
        = s.humEnabled ∧
    (performReading setSettings modeResult fetchResult fetched s).1.presEnabled
        = s.presEnabled ∧
    (performReading setSettings modeResult fetchResult fetched s).1.gasEnabled
        = s.gasEnabled ∧
    (performReading setSettings modeResult fetchResult fetched s).1.filterEnabled
        = s.filterEnabled ∧
    (performReading setSettings modeResult fetchResult fetched s).1.gas_sensor.tph_sett
        = s.gas_sensor.tph_sett ∧
    (performReading setSettings modeResult fetchResult fetched s).1.gas_sensor.gas_sett
        = s.gas_sensor.gas_sett ∧
    (performReading setSettings modeResult fetchResult fetched s).1.gas_sensor.power_mode
        = BME680_FORCED_MODE := by
  unfold performReading
  split_ifs <;> simp [setForcedMode]
